import Mathlib

/-!
Verification of the OTA outcome classification and aggregation pipeline of the
jenkins-mern-ota-backend repository.

The definitions below are a shallow embedding of the JavaScript source:

* `compareVersions` / `normalizeVersionParts` — routes/otaUpdates.js (the
  revision with the `reprogramming` flag), the dotted-numeric version
  comparator;
* `determineUpdateType` — the legacy revision of routes/otaUpdates.js, the
  float-based classifier with the literal `"0.0"` failure convention;
* `processReport` — the dashboard-stats mutation performed by the
  `POST /report` handler (effective-badge policy, recovery flagging,
  failure dedup);
* `computeRecordCounts` — Routes/Dashboard.js, the read-side count rollup;
* `addStatusEntry` / `ingestReport` — Models/OTAUpdateModel.js and the
  per-unit (PIC) ingest route, attempt history and derived counters;
* `resolveStatusForDevice` — the status resolver mapping a raw status code to
  message/badge/color via per-device configuration, text heuristics and the
  fixed numeric rule.

JavaScript strings are Lean `String`; JS `Date` timestamps are abstracted as
`Nat` (only equality/ordering of timestamps matters to the verified logic);
possibly-absent JS fields are `Option`; `parseInt`/`parseFloat` are modelled
on decimal inputs (the only shape version strings and status codes take).
-/

namespace OTA

/-- Whitespace characters skipped by JS `parseInt` / `parseFloat` / `trim`. -/
def isJsWhitespace (c : Char) : Bool :=
  c = ' ' || c = '\t' || c = '\n' || c = '\r'

/-- JS `String.prototype.trim` on the character list of a string. -/
def jsTrimList (cs : List Char) : List Char :=
  ((cs.dropWhile isJsWhitespace).reverse.dropWhile isJsWhitespace).reverse

/-- JS `String.prototype.trim`. -/
def jsTrim (s : String) : String :=
  ⟨jsTrimList s.data⟩

/-- Value of a list of decimal digit characters. -/
def decDigitsToNat (ds : List Char) : Nat :=
  ds.foldl (fun a c => a * 10 + (c.toNat - 48)) 0

/-- JS `parseInt(s, 10)` on a character list: skip leading whitespace, read an
optional sign and then the longest run of decimal digits; `none` models `NaN`
(no digits found). -/
def jsParseIntList (cs : List Char) : Option Int :=
  let cs := cs.dropWhile isJsWhitespace
  let signAndRest : Int × List Char :=
    match cs with
    | '-' :: r => (-1, r)
    | '+' :: r => (1, r)
    | r => (1, r)
  let ds := signAndRest.2.takeWhile Char.isDigit
  if ds.isEmpty then none
  else some (signAndRest.1 * (decDigitsToNat ds : Int))

/-- JS `parseInt(s, 10)`. -/
def jsParseInt (s : String) : Option Int :=
  jsParseIntList s.data

/-- A parsed decimal number `num / 10 ^ scale`, the exact value JS
`parseFloat` reads from a decimal literal (short decimal version segments are
ordered identically as exact decimals and as IEEE doubles). -/
structure DecimalValue where
  num : Int
  scale : Nat
  deriving Repr, DecidableEq

/-- Numeric order on parsed decimals, by cross-multiplication. -/
def decimalLt (a b : DecimalValue) : Bool :=
  a.num * (10 : Int) ^ b.scale < b.num * (10 : Int) ^ a.scale

/-- JS `parseFloat(s)` on decimal significands (no exponent notation, which
never occurs in version strings): optional sign, integer digits, optional
fractional digits; `none` models `NaN`. -/
def jsParseFloat (s : String) : Option DecimalValue :=
  let cs := s.data.dropWhile isJsWhitespace
  let signAndRest : Int × List Char :=
    match cs with
    | '-' :: r => (-1, r)
    | '+' :: r => (1, r)
    | r => (1, r)
  let ipart := signAndRest.2.takeWhile Char.isDigit
  let rest := signAndRest.2.dropWhile Char.isDigit
  match rest with
  | '.' :: r2 =>
    let fpart := r2.takeWhile Char.isDigit
    if ipart.isEmpty && fpart.isEmpty then none
    else some
      { num := signAndRest.1 *
          ((decDigitsToNat ipart * 10 ^ fpart.length + decDigitsToNat fpart : Nat) : Int)
        scale := fpart.length }
  | _ =>
    if ipart.isEmpty then none
    else some { num := signAndRest.1 * (decDigitsToNat ipart : Int), scale := 0 }

/-- JS `String.prototype.split('.')` on a character list: always yields one
(possibly empty) segment more than the number of dots. -/
def splitOnDot : List Char → List (List Char)
  | [] => [[]]
  | '.' :: rest => [] :: splitOnDot rest
  | c :: rest =>
    match splitOnDot rest with
    | [] => [[c]]
    | p :: ps => (c :: p) :: ps

/-- `normalizeVersionParts` from routes/otaUpdates.js: an all-whitespace
version yields `[0]`, otherwise the string is split on dots and each segment
parsed with `parseInt(·, 10)`, `NaN` segments becoming 0.  (The source also
coerces `undefined`/`null` to `[0]` before this; ingest validation guarantees
the handler only ever passes genuine strings.) -/
def normalizeVersionParts (version : String) : List Int :=
  if jsTrim version = "" then [0]
  else (splitOnDot version.data).map (fun part => (jsParseIntList part).getD 0)

/-- Tail of the comparison loop of `compareVersions` once the first segment
list is exhausted: each remaining updated segment is compared against the
`?? 0` default. -/
def compareSegsLeftEmpty : List Int → Int
  | [] => 0
  | u :: us => if 0 > u then 1 else if 0 < u then -1 else compareSegsLeftEmpty us

/-- Tail of the comparison loop of `compareVersions` once the second segment
list is exhausted: each remaining previous segment is compared against the
`?? 0` default. -/
def compareSegsRightEmpty : List Int → Int
  | [] => 0
  | p :: ps => if p > 0 then 1 else if p < 0 then -1 else compareSegsRightEmpty ps

/-- The comparison loop of `compareVersions`: indices past the end of either
segment list read as 0 (the `?? 0` defaults in the source). -/
def compareSegs : List Int → List Int → Int
  | [], us => compareSegsLeftEmpty us
  | p :: ps, [] => if p > 0 then 1 else if p < 0 then -1 else compareSegsRightEmpty ps
  | p :: ps, u :: us => if p > u then 1 else if p < u then -1 else compareSegs ps us

/-- `compareVersions` from routes/otaUpdates.js: -1 when
`previousVersion < updatedVersion`, 0 when equal, 1 when greater. -/
def compareVersions (previousVersion updatedVersion : String) : Int :=
  compareSegs (normalizeVersionParts previousVersion) (normalizeVersionParts updatedVersion)

/-- Pad a segment list with trailing zeros to length `n` (spec wording). -/
def padTo (n : Nat) (l : List Int) : List Int :=
  l ++ List.replicate (n - l.length) 0

/-- First-unequal-segment comparison of two equal-length segment lists (spec
wording). -/
def firstUnequal : List Int → List Int → Int
  | p :: ps, u :: us => if p > u then 1 else if p < u then -1 else firstUnequal ps us
  | _, _ => 0

/-- The comparator as the spec words it: pad
both segment sequences to equal length with trailing zeros, then compare
segment-by-segment left to right, the first non-equal segment deciding.  Kept
separate from `compareVersions` so the two can be compared. -/
def specVersionCompare (previousVersion updatedVersion : String) : Int :=
  let ps := normalizeVersionParts previousVersion
  let us := normalizeVersionParts updatedVersion
  let m := max ps.length us.length
  firstUnequal (padTo m ps) (padTo m us)

/-- `determineUpdateType` from the legacy revision of routes/otaUpdates.js:
the literal `"0.0"` updated version is an unconditional failure, otherwise a
float-based comparison classifies the report. -/
def determineUpdateType (previousVersion updatedVersion : String) : String :=
  if updatedVersion = "0.0" then "failure"
  else
    match jsParseFloat previousVersion, jsParseFloat updatedVersion with
    | some prev, some updated => if decimalLt prev updated then "success" else "other"
    | _, _ => "other"

/-- One record inside a daily bucket of a DailyDeviceStats (DashboardStats)
document.  `recovered` is `none` when the stored document predates the flag
(`record.recovered` is `undefined` in JS), `some b` otherwise; timestamps are
abstract `Nat`. -/
structure StatsRecord where
  picID : String
  deviceId : String
  status : String
  statusMessage : String
  badge : String
  previousVersion : String
  updatedVersion : String
  reprogramming : Bool
  recovered : Option Bool
  timestamp : Nat
  deriving Repr, DecidableEq

/-- The three daily outcome buckets of one (device, day) DailyDeviceStats
document after shape normalization (`stats.records` with three arrays). -/
structure DayRecords where
  success : List StatsRecord
  failure : List StatsRecord
  other : List StatsRecord
  deriving Repr, DecidableEq

/-- The empty bucket shape a DailyDeviceStats document is created with. -/
def emptyDayRecords : DayRecords :=
  { success := [], failure := [], other := [] }

/-- Per-day/per-device count rollup: `computeRecordCounts` from
Routes/Dashboard.js.  (The `Array.isArray` guards of the source normalize
malformed documents and are the identity on the well-typed bucket shape
embedded here; `record && record.recovered === false` is the
`recovered = some false` test on non-null records.) -/
structure RecordCounts where
  success : Nat
  failure : Nat
  other : Nat
  total : Nat
  deriving Repr, DecidableEq

/-- Whether a stored failure record is an active (unrecovered) failure:
`record.recovered === false` in JS. -/
def isActiveFailure (r : StatsRecord) : Bool :=
  r.recovered = some false

/-- `computeRecordCounts` from Routes/Dashboard.js. -/
def computeRecordCounts (records : DayRecords) : RecordCounts :=
  let activeFailures := records.failure.filter isActiveFailure
  { success := records.success.length
    failure := activeFailures.length
    other := records.other.length
    total := records.success.length + activeFailures.length + records.other.length }

/-- The context of one `POST /report` ingest (routes/otaUpdates.js, the
revision with the `reprogramming` flag) after request validation and status
configuration lookup have succeeded: `previousVersion`/`updatedVersion` are
the sanitized (trimmed) strings, `configBadge`/`configMessage` are
`statusCode.badge`/`statusCode.message` of the matched configuration entry
(an absent badge is the empty string, made `"other"` by `|| "other"`), and
`isReprogramming` is the parsed boolean flag. -/
structure ReportCtx where
  pic_id : String
  deviceId : String
  status : String
  previousVersion : String
  updatedVersion : String
  isReprogramming : Bool
  configMessage : String
  configBadge : String
  timestamp : Nat
  deriving Repr, DecidableEq

/-- `baseBadge = statusCode.badge || "other"`. -/
def baseBadge (c : ReportCtx) : String :=
  if c.configBadge = "" then "other" else c.configBadge

/-- `versionComparison = compareVersions(sanitizedPreviousVersion,
sanitizedUpdatedVersion)`. -/
def versionComparison (c : ReportCtx) : Int :=
  compareVersions c.previousVersion c.updatedVersion

/-- `shouldHandleReprogrammingSuccess = isReprogramming && baseBadge ===
"success"`. -/
def shouldHandleReprogrammingSuccess (c : ReportCtx) : Bool :=
  c.isReprogramming && baseBadge c = "success"

/-- `alreadyUpdatedCase = !isReprogramming && isVersionEqual && baseBadge ===
"other"`. -/
def alreadyUpdatedCase (c : ReportCtx) : Bool :=
  !c.isReprogramming && versionComparison c = 0 && baseBadge c = "other"

/-- `lowerToUpper = !isReprogramming && isVersionUpgrade`. -/
def lowerToUpper (c : ReportCtx) : Bool :=
  !c.isReprogramming && versionComparison c = -1

/-- `finalBadge`: the effective badge fed to aggregation — `"other"` in the
reprogramming-success and already-updated cases, the resolved badge
otherwise. -/
def finalBadge (c : ReportCtx) : String :=
  if shouldHandleReprogrammingSuccess c || alreadyUpdatedCase c then "other"
  else baseBadge c

/-- `needsDashboardUpdate = shouldHandleReprogrammingSuccess ||
alreadyUpdatedCase || lowerToUpper`. -/
def needsDashboardUpdate (c : ReportCtx) : Bool :=
  shouldHandleReprogrammingSuccess c || alreadyUpdatedCase c || lowerToUpper c

/-- The record object the handler pushes into a bucket (`baseRecord` plus the
`recovered` default `bucket === "failure" ? false : true`; the one explicit
override, `{ recovered: false }` on the failure append, coincides with that
default). -/
def mkDayRecord (c : ReportCtx) (bucket : String) : StatsRecord :=
  { picID := c.pic_id
    deviceId := c.deviceId
    status := c.status
    statusMessage := c.configMessage
    badge := finalBadge c
    previousVersion := c.previousVersion
    updatedVersion := c.updatedVersion
    reprogramming := c.isReprogramming
    recovered := some (bucket ≠ "failure")
    timestamp := c.timestamp }

/-- The predicate of `findUnrecoveredFailure`: same PIC, same device, and
`recovered === false`. -/
def unrecoveredFailureFor (c : ReportCtx) (r : StatsRecord) : Bool :=
  r.picID = c.pic_id && r.deviceId = c.deviceId && r.recovered = some false

/-- Flip `recovered` to `true` on the first matching unrecovered failure
record, as the handler does via `Array.prototype.find` followed by a
mutation of the found element. -/
def recoverFirst (c : ReportCtx) : List StatsRecord → List StatsRecord
  | [] => []
  | r :: rs =>
    if unrecoveredFailureFor c r then { r with recovered := some true } :: rs
    else r :: recoverFirst c rs

/-- The DailyDeviceStats mutation performed by one `POST /report` ingest
(routes/otaUpdates.js): nothing is touched unless `needsDashboardUpdate`;
a reprogramming success or an already-updated report is appended to the
other bucket; on the upgrade path a success first recovery-flags any
unrecovered failure of the same unit and is then appended, a failure is
appended only when no unrecovered failure for the unit exists, and anything
else goes to the other bucket.  (The parallel `OTAUpdate.updateMany`
recovery write touches the attempt collection, not this document.) -/
def processReport (c : ReportCtx) (s : DayRecords) : DayRecords :=
  if needsDashboardUpdate c then
    if shouldHandleReprogrammingSuccess c then
      { s with other := s.other ++ [mkDayRecord c "other"] }
    else if alreadyUpdatedCase c then
      { s with other := s.other ++ [mkDayRecord c "other"] }
    else
      if finalBadge c = "success" then
        { s with
          failure := recoverFirst c s.failure
          success := s.success ++ [mkDayRecord c "success"] }
      else if finalBadge c = "failure" then
        match s.failure.find? (unrecoveredFailureFor c) with
        | some _ => s
        | none => { s with failure := s.failure ++ [mkDayRecord c "failure"] }
      else
        { s with other := s.other ++ [mkDayRecord c "other"] }
  else s

/-- One attempt inside an OTAUpdate (Unit/PIC) document: the
`StatusEntrySchema` of Models/OTAUpdateModel.js. -/
structure StatusEntry where
  status : String
  statusMessage : String
  badge : String
  color : Option String
  date : Nat
  attemptNumber : Nat
  deriving Repr, DecidableEq

/-- An OTAUpdate (Unit/PIC) document: `OTAUpdateSchema` of
Models/OTAUpdateModel.js, keyed by the unique compound index
`(pic_id, updatedVersion)`. -/
structure OTAUpdateDoc where
  pic_id : String
  deviceId : String
  previousVersion : String
  updatedVersion : String
  date : Nat
  statusEntries : List StatusEntry
  finalStatus : String
  totalAttempts : Nat
  successAttempts : Nat
  failureAttempts : Nat
  deriving Repr, DecidableEq

/-- The success-attempt filter of `addStatusEntry`: badge `"success"`, or the
status code parses and is 2 or 3. -/
def isSuccessEntry (e : StatusEntry) : Bool :=
  e.badge = "success" ||
    (match jsParseInt e.status with
     | some code => code = 2 || code = 3
     | none => false)

/-- The failure-attempt filter of `addStatusEntry`: badge `"failure"`, or the
status code parses and is neither 2 nor 3. -/
def isFailureEntry (e : StatusEntry) : Bool :=
  e.badge = "failure" ||
    (match jsParseInt e.status with
     | some code => !(code = 2 || code = 3)
     | none => false)

/-- `addStatusEntry` from Models/OTAUpdateModel.js: append a status entry
(an invalid or absent `entryDate` falls back to `now`), recompute
`totalAttempts`/`successAttempts`/`failureAttempts` from the whole entry
list, and update `finalStatus` from the latest badge (falling back to the
2-or-3 code rule when the badge is neither success nor failure). -/
def addStatusEntry (doc : OTAUpdateDoc) (status statusMessage : String)
    (entryDate : Option Nat) (badge : String) (color : Option String)
    (now : Nat) : OTAUpdateDoc :=
  let attemptNumber := doc.statusEntries.length + 1
  let entry : StatusEntry :=
    { status := status
      statusMessage := statusMessage
      badge := badge
      color := color
      date := entryDate.getD now
      attemptNumber := attemptNumber }
  let entries := doc.statusEntries ++ [entry]
  let finalStatus :=
    if badge = "success" then "success"
    else if badge = "failure" then "failed"
    else
      match jsParseInt status with
      | some latestCode => if latestCode = 2 || latestCode = 3 then "success" else "failed"
      | none => doc.finalStatus
  { doc with
    statusEntries := entries
    totalAttempts := entries.length
    successAttempts := (entries.filter isSuccessEntry).length
    failureAttempts := (entries.filter isFailureEntry).length
    finalStatus := finalStatus }

/-- A fresh OTAUpdate document as built by the ingest route before its first
`addStatusEntry` (schema defaults: no entries, `finalStatus` pending, zero
success/failure counters). -/
def newOTAUpdateDoc (pic_id deviceId previousVersion updatedVersion : String)
    (date : Nat) : OTAUpdateDoc :=
  { pic_id := pic_id
    deviceId := deviceId
    previousVersion := previousVersion
    updatedVersion := updatedVersion
    date := date
    statusEntries := []
    finalStatus := "pending"
    totalAttempts := 1
    successAttempts := 0
    failureAttempts := 0 }

/-- The `findOne({ pic_id, updatedVersion })` key match. -/
def keyMatches (pic_id updatedVersion : String) (d : OTAUpdateDoc) : Bool :=
  d.pic_id = pic_id && d.updatedVersion = updatedVersion

/-- Replace the first element satisfying `p` by its image under `f` (how a
`findOne` + mutate + `save` round-trip acts on the stored collection). -/
def updateFirst (p : α → Bool) (f : α → α) : List α → List α
  | [] => []
  | x :: xs => if p x then f x :: xs else x :: updateFirst p f xs

/-- The per-unit ingest `POST /` (the resolver-based revision of
routes/otaUpdates.js): look up the OTAUpdate document for
`(pic_id, updatedVersion)`; if present append the resolved status entry to
it, otherwise create a fresh document and append the entry to that; the
collection is the list of stored documents. -/
def ingestReport (store : List OTAUpdateDoc)
    (pic_id deviceId previousVersion updatedVersion : String)
    (status message badge : String) (color : Option String)
    (entryDate : Option Nat) (now : Nat) : List OTAUpdateDoc :=
  match store.find? (keyMatches pic_id updatedVersion) with
  | some _ =>
    updateFirst (keyMatches pic_id updatedVersion)
      (fun d => addStatusEntry d status message entryDate badge color now) store
  | none =>
    store ++ [addStatusEntry
      (newOTAUpdateDoc pic_id deviceId previousVersion updatedVersion (entryDate.getD now))
      status message entryDate badge color now]

/-- One `(code, message, color, badge)` entry of the StatusConfiguration of a device (`statusCodes` array).  Empty-string `badge`/`color`
stand for absent fields (both are used through JS `||`). -/
structure ConfigEntry where
  code : Int
  message : String
  color : String
  badge : String
  deriving Repr, DecidableEq

/-- JS `String.prototype.toLowerCase` (ASCII case mapping suffices for the
status phrases involved). -/
def jsToLower (s : String) : String :=
  ⟨s.data.map Char.toLower⟩

/-- JS `String.prototype.includes` on character lists. -/
def listIncludes (needle : List Char) : List Char → Bool
  | [] => needle.isEmpty
  | c :: cs => needle.isPrefixOf (c :: cs) || listIncludes needle cs

/-- JS `hay.includes(needle)`. -/
def strIncludes (hay needle : String) : Bool :=
  listIncludes needle.data hay.data

/-- The text-heuristic chain of `resolveStatusForDevice`, applied to the
lowercased raw status text: the first matching group decides the provisional
badge and color, and nothing matching leaves the defaults
(`badge = "other"`, no color). -/
def heuristicBadgeColor (lower : String) : String × Option String :=
  if strIncludes lower "already updated" || strIncludes lower "already up to date" ||
     strIncludes lower "no update needed" || strIncludes lower "firmware already current" ||
     strIncludes lower "version already installed" || strIncludes lower "no update required" ||
     strIncludes lower "current version running" then
    ("success", some "#16a34a")
  else if strIncludes lower "up to date" || strIncludes lower "current version" then
    ("success", some "#16a34a")
  else if strIncludes lower "success" || strIncludes lower "updated successfully" ||
          strIncludes lower "update complete" || strIncludes lower "update finished" ||
          strIncludes lower "installation complete" || strIncludes lower "firmware installed" ||
          strIncludes lower "update successful" then
    ("success", some "#16a34a")
  else if strIncludes lower "failed" || strIncludes lower "error" ||
          strIncludes lower "update failed" then
    ("failure", some "#dc2626")
  else if strIncludes lower "in progress" || strIncludes lower "pending" ||
          strIncludes lower "downloading" || strIncludes lower "installing" then
    ("other", some "#f59e0b")
  else
    ("other", none)

/-- The output shape of the resolver: `{ message, badge, color }`. -/
structure ResolvedStatus where
  message : String
  badge : String
  color : Option String
  deriving Repr, DecidableEq

/-- `resolveStatusForDevice` from the resolver-based revision of
routes/otaUpdates.js: start from the raw status text with the heuristic
badge/color; when the code parses as an integer and the configuration of the device (`none` when the device has no StatusConfiguration document)
has a matching `code` entry, take the message of that entry and its non-empty
badge/color; finally, whenever the code is numeric, force badge/color for
codes 2, 3 (success) and 0, 1 (failure). -/
def resolveStatusForDevice (config : Option (List ConfigEntry)) (rawStatus : String) :
    ResolvedStatus :=
  let message := rawStatus
  let code := jsParseInt rawStatus
  let heur := heuristicBadgeColor (jsToLower message)
  let badge := heur.1
  let color := heur.2
  let afterConfig : String × String × Option String :=
    match config, code with
    | some entries, some c =>
      match entries.find? (fun sc => sc.code = c) with
      | some m =>
        (m.message,
         if m.badge = "" then badge else m.badge,
         if m.color = "" then color else some m.color)
      | none => (message, badge, color)
    | _, _ => (message, badge, color)
  match code with
  | some c =>
    if c = 2 || c = 3 then
      { message := afterConfig.1, badge := "success", color := some "#16a34a" }
    else if c = 0 || c = 1 then
      { message := afterConfig.1, badge := "failure", color := some "#dc2626" }
    else
      { message := afterConfig.1, badge := afterConfig.2.1, color := afterConfig.2.2 }
  | none =>
    { message := afterConfig.1, badge := afterConfig.2.1, color := afterConfig.2.2 }

/-! Helper lemmas shared by the claim theorems. -/

theorem compareSegsLeftEmpty_spec (us : List Int) :
    compareSegsLeftEmpty us = firstUnequal (List.replicate us.length 0) us := by
  induction us with
  | nil => rfl
  | cons u us ih =>
    simp only [compareSegsLeftEmpty, List.length_cons, List.replicate_succ, firstUnequal, ih]

theorem compareSegsRightEmpty_spec (ps : List Int) :
    compareSegsRightEmpty ps = firstUnequal ps (List.replicate ps.length 0) := by
  induction ps with
  | nil => rfl
  | cons p ps ih =>
    simp only [compareSegsRightEmpty, List.length_cons, List.replicate_succ, firstUnequal, ih]

theorem padTo_nil (n : Nat) : padTo n [] = List.replicate n 0 := by
  simp [padTo]

theorem padTo_self (l : List Int) : padTo l.length l = l := by
  simp [padTo]

theorem padTo_cons (n : Nat) (x : Int) (l : List Int) :
    padTo (n + 1) (x :: l) = x :: padTo n l := by
  simp [padTo, Nat.succ_sub_succ]

theorem compareSegs_spec (ps us : List Int) :
    compareSegs ps us =
      firstUnequal (padTo (max ps.length us.length) ps)
        (padTo (max ps.length us.length) us) := by
  induction ps generalizing us with
  | nil =>
    simp only [compareSegs, List.length_nil, Nat.zero_max, padTo_nil, padTo_self]
    exact compareSegsLeftEmpty_spec us
  | cons p ps ih =>
    cases us with
    | nil =>
      simp only [compareSegs, padTo, List.length_cons, List.length_nil, Nat.max_zero,
        Nat.sub_self, List.replicate, List.append_eq, List.append_nil, List.nil_append,
        Nat.sub_zero, firstUnequal, compareSegsRightEmpty_spec]
    | cons u us =>
      simp only [compareSegs, ih, padTo, List.length_cons, Nat.succ_max_succ,
        Nat.succ_sub_succ, List.append_eq, List.cons_append, firstUnequal]

theorem recoverFirst_length (c : ReportCtx) (l : List StatsRecord) :
    (recoverFirst c l).length = l.length := by
  induction l with
  | nil => rfl
  | cons r rs ih =>
    by_cases h : unrecoveredFailureFor c r <;> simp [recoverFirst, h, ih]

theorem find?_append_single_isSome (p : α → Bool) (l : List α) (x : α)
    (hx : p x = true) : ((l ++ [x]).find? p).isSome = true := by
  induction l with
  | nil => simp [List.find?_cons, hx]
  | cons a as ih =>
    by_cases h : p a
    · rw [List.cons_append, List.find?_cons_of_pos _ h]
      rfl
    · rw [List.cons_append, List.find?_cons_of_neg _ h]
      exact ih

theorem updateFirst_length (p : α → Bool) (f : α → α) (l : List α) :
    (updateFirst p f l).length = l.length := by
  induction l with
  | nil => rfl
  | cons a as ih =>
    by_cases h : p a <;> simp [updateFirst, h, ih]

theorem find?_updateFirst (p : α → Bool) (f : α → α)
    (hpf : ∀ x, p (f x) = p x) (l : List α) :
    (updateFirst p f l).find? p = (l.find? p).map f := by
  induction l with
  | nil => rfl
  | cons a as ih =>
    by_cases h : p a
    · simp [updateFirst, h, List.find?_cons, hpf]
    · simp [updateFirst, h, List.find?_cons, ih]

theorem mem_updateFirst {p : α → Bool} {f : α → α} {l : List α} {b : α}
    (hb : b ∈ updateFirst p f l) : b ∈ l ∨ ∃ x, x ∈ l ∧ b = f x := by
  induction l with
  | nil => simp [updateFirst] at hb
  | cons a as ih =>
    by_cases h : p a
    · simp only [updateFirst, h, if_true] at hb
      rcases List.mem_cons.mp hb with hb | hb
      · exact Or.inr ⟨a, List.mem_cons_self a as, hb⟩
      · exact Or.inl (List.mem_cons_of_mem a hb)
    · simp only [updateFirst, h, if_false] at hb
      rcases List.mem_cons.mp hb with hb | hb
      · exact Or.inl (hb ▸ List.mem_cons_self a as)
      · rcases ih hb with hmem | ⟨x, hx, hbx⟩
        · exact Or.inl (List.mem_cons_of_mem a hmem)
        · exact Or.inr ⟨x, List.mem_cons_of_mem a hx, hbx⟩

/-- Two OTAUpdate documents collide on the unique compound index. -/
def sameKey (a b : OTAUpdateDoc) : Prop :=
  a.pic_id = b.pic_id ∧ a.updatedVersion = b.updatedVersion

/-- The uniqueness invariant enforced by the
`OTAUpdateSchema.index({ pic_id: 1, updatedVersion: 1 }, { unique: true })`
compound index: no two stored documents share a key. -/
def UniqueKeys (store : List OTAUpdateDoc) : Prop :=
  store.Pairwise (fun a b => ¬ sameKey a b)

theorem uniqueKeys_updateFirst {p : OTAUpdateDoc → Bool} {f : OTAUpdateDoc → OTAUpdateDoc}
    (hf : ∀ x, (f x).pic_id = x.pic_id ∧ (f x).updatedVersion = x.updatedVersion)
    {l : List OTAUpdateDoc} (h : UniqueKeys l) : UniqueKeys (updateFirst p f l) := by
  induction l with
  | nil => simpa [updateFirst] using h
  | cons a as ih =>
    rcases List.pairwise_cons.mp h with ⟨ha, has⟩
    by_cases hp : p a
    · simp only [UniqueKeys, updateFirst, hp, if_true]
      refine List.pairwise_cons.mpr ⟨?_, has⟩
      intro b hb hk
      exact ha b hb ⟨((hf a).1).symm.trans hk.1, ((hf a).2).symm.trans hk.2⟩
    · simp only [UniqueKeys, updateFirst, hp, if_false]
      refine List.pairwise_cons.mpr ⟨?_, ih has⟩
      intro b hb hk
      rcases mem_updateFirst hb with hmem | ⟨x, hx, rfl⟩
      · exact ha b hmem hk
      · exact ha x hx ⟨hk.1.trans (hf x).1, hk.2.trans (hf x).2⟩

/-! Claim theorems. -/

/-- C2: for every stored DailyDeviceStats document, `computeRecordCounts`
reports the success count as the length of the success bucket, the failure
count as the number of failure records whose `recovered` field is exactly
`false`, the other count as the length of the other bucket, and the total as
the sum of the three. -/
theorem C2_record_count_semantics (records : DayRecords) :
    (computeRecordCounts records).success = records.success.length ∧
    (computeRecordCounts records).failure =
      (records.failure.filter (fun r => r.recovered = some false)).length ∧
    (computeRecordCounts records).other = records.other.length ∧
    (computeRecordCounts records).total =
      (computeRecordCounts records).success + (computeRecordCounts records).failure +
        (computeRecordCounts records).other := by
  refine ⟨rfl, ?_, rfl, rfl⟩
  have h : isActiveFailure = fun r => decide (r.recovered = some false) := rfl
  rw [computeRecordCounts, h]

/-- C3: `compareVersions` is the numeric per-segment comparator the spec
describes — it agrees with padding both segment lists with trailing zeros to
equal length and comparing left to right with the first unequal segment
deciding — and in particular previous `"1.2"` against updated `"1.10"` is
lower (an upgrade) while `"1.10"` against `"1.2"` is higher, numerically
rather than lexically. -/
theorem C3_compareVersions_segmentwise :
    (∀ previousVersion updatedVersion : String,
      compareVersions previousVersion updatedVersion =
        specVersionCompare previousVersion updatedVersion) ∧
    compareVersions "1.2" "1.10" = -1 ∧
    compareVersions "1.10" "1.2" = 1 :=
  ⟨fun _ _ => compareSegs_spec _ _, by decide, by decide⟩

/-- A `POST /report` ingest whose updated version is the literal `"0.0"`,
with previous version `"1.0"` and a configured success badge — the concrete
input on which the `/report` pipeline ignores the `"0.0"` convention. -/
def zeroVersionCtx : ReportCtx :=
  { pic_id := "P1"
    deviceId := "D1"
    status := "2"
    previousVersion := "1.0"
    updatedVersion := "0.0"
    isReprogramming := false
    configMessage := "update successful"
    configBadge := "success"
    timestamp := 10 }

/-- C4 counterexample: the `/report` pipeline has no `"0.0"` special case —
for the concrete report `zeroVersionCtx` (updatedVersion exactly `"0.0"`,
configured badge success, previous version `"1.0"`), the effective badge is
`"success"`, not `"failure"`, and the failure bucket of the day gains nothing
(the dashboard is not updated at all, the comparison being a downgrade). -/
theorem C4_report_zero_version_counterexample :
    zeroVersionCtx.updatedVersion = "0.0" ∧
    finalBadge zeroVersionCtx = "success" ∧
    finalBadge zeroVersionCtx ≠ "failure" ∧
    processReport zeroVersionCtx emptyDayRecords = emptyDayRecords := by
  decide

/-- C4 (amended): only the classifier of the legacy ingest route
`determineUpdateType` implements the `"0.0"` convention — there, every report
whose updated version is exactly the literal `"0.0"` is classified
`"failure"` regardless of the previous version and of any comparison. -/
theorem C4_legacy_zero_version_failure (previousVersion : String) :
    determineUpdateType previousVersion "0.0" = "failure" := by
  simp [determineUpdateType]

/-- C9 (amended): after `addStatusEntry` the counters of the unit are recomputed
from its attempt list — `totalAttempts` is the number of attempts,
`successAttempts` counts attempts whose badge is `"success"` or whose status
code parses as 2 or 3, and `failureAttempts` counts attempts whose badge is
`"failure"` or whose status code parses as an integer other than 2 and 3
(so one attempt can be counted on both sides). -/
theorem C9_counters_recomputed (doc : OTAUpdateDoc) (status statusMessage : String)
    (entryDate : Option Nat) (badge : String) (color : Option String) (now : Nat) :
    (addStatusEntry doc status statusMessage entryDate badge color now).totalAttempts =
      (addStatusEntry doc status statusMessage entryDate badge color now).statusEntries.length ∧
    (addStatusEntry doc status statusMessage entryDate badge color now).successAttempts =
      ((addStatusEntry doc status statusMessage entryDate badge color now).statusEntries.filter
        isSuccessEntry).length ∧
    (addStatusEntry doc status statusMessage entryDate badge color now).failureAttempts =
      ((addStatusEntry doc status statusMessage entryDate badge color now).statusEntries.filter
        isFailureEntry).length :=
  ⟨rfl, rfl, rfl⟩

/-- A fresh unit document holding a single attempt with raw status `"5"` and
badge `"other"`. -/
def otherBadgeUnit : OTAUpdateDoc :=
  addStatusEntry (newOTAUpdateDoc "P1" "D1" "1.0" "2.0" 0) "5" "in progress" (some 0) "other" none 0

/-- C9 counterexample: the badge-only reading of the counters fails —
`otherBadgeUnit` has one attempt whose badge is `"other"` and raw status
`"5"`, yet `failureAttempts` is 1 while the number of attempts whose badge is
`"failure"` is 0 (the counter also counts numeric codes other than 2 and 3). -/
theorem C9_failureAttempts_counterexample :
    otherBadgeUnit.failureAttempts = 1 ∧
    (otherBadgeUnit.statusEntries.filter (fun e => e.badge = "failure")).length = 0 ∧
    otherBadgeUnit.failureAttempts ≠
      (otherBadgeUnit.statusEntries.filter (fun e => e.badge = "failure")).length := by
  decide

/-- C10 (amended): when the raw status code parses as an integer and the
configuration has a matching entry, the resolver output message is always the message of that entry, but the fixed numeric rule is applied whenever the code is
numeric — codes 2 and 3 force badge `"success"` and codes 0 and 1 force
badge `"failure"` even over the configured badge; only for codes outside
0–3 does the configured (non-empty) badge decide. -/
theorem C10_resolver_precedence (entries : List ConfigEntry) (rawStatus : String)
    (c : Int) (entry : ConfigEntry)
    (hc : jsParseInt rawStatus = some c)
    (hfind : entries.find? (fun sc => sc.code = c) = some entry) :
    (resolveStatusForDevice (some entries) rawStatus).message = entry.message ∧
    (c = 2 ∨ c = 3 → (resolveStatusForDevice (some entries) rawStatus).badge = "success") ∧
    (c = 0 ∨ c = 1 → (resolveStatusForDevice (some entries) rawStatus).badge = "failure") ∧
    (¬(c = 0 ∨ c = 1 ∨ c = 2 ∨ c = 3) → entry.badge ≠ "" →
      (resolveStatusForDevice (some entries) rawStatus).badge = entry.badge) := by
  refine ⟨?_, ?_, ?_, ?_⟩
  · simp only [resolveStatusForDevice, hc, hfind]
    split
    · rfl
    · split <;> rfl
  · rintro (rfl | rfl) <;> simp [resolveStatusForDevice, hc, hfind]
  · rintro (rfl | rfl) <;> simp [resolveStatusForDevice, hc, hfind]
  · intro hne hb
    push_neg at hne
    obtain ⟨h0, h1, h2, h3⟩ := hne
    simp [resolveStatusForDevice, hc, hfind, h0, h1, h2, h3, hb]

/-- A configuration entry that maps code 2 to a failure badge, overridden by
the numeric rule. -/
def overriddenEntry : ConfigEntry :=
  { code := 2, message := "custom failure", color := "#000000", badge := "failure" }

/-- C10 counterexample: configuration does not override the numeric rule —
with the single configured entry `code 2 → badge "failure"` and raw status
`"2"`, the resolver yields badge `"success"` (the fixed numeric rule runs
last and wins), not the configured `"failure"`, although the configured
message is kept. -/
theorem C10_numeric_rule_counterexample :
    (resolveStatusForDevice (some [overriddenEntry]) "2").badge = "success" ∧
    overriddenEntry.badge = "failure" ∧
    (resolveStatusForDevice (some [overriddenEntry]) "2").badge ≠ overriddenEntry.badge ∧
    (resolveStatusForDevice (some [overriddenEntry]) "2").message = overriddenEntry.message := by
  decide

/-- A configuration entry for a code outside the fixed numeric set. -/
def plainCodeEntry : ConfigEntry :=
  { code := 5, message := "flash stage five", color := "", badge := "failure" }

/-- C10 witness: the amended precedence theorem applied at code 5, where the
configured message and badge do decide the resolver output. -/
theorem C10_resolver_precedence_witness :
    (resolveStatusForDevice (some [plainCodeEntry]) "5").message = plainCodeEntry.message ∧
    (resolveStatusForDevice (some [plainCodeEntry]) "5").badge = plainCodeEntry.badge := by
  have h := C10_resolver_precedence [plainCodeEntry] "5" 5 plainCodeEntry (by decide) (by decide)
  exact ⟨h.1, h.2.2.2 (by decide) (by decide)⟩

/-- C5: a report with `reprogramming = true` whose resolved badge is success
has effective badge `"other"`: the success bucket of the day is untouched and the
other bucket gains exactly one record. -/
theorem C5_reprogramming_success_to_other (c : ReportCtx) (s : DayRecords)
    (hre : c.isReprogramming = true)
    (hb : baseBadge c = "success") :
    finalBadge c = "other" ∧
    (processReport c s).success = s.success ∧
    (processReport c s).other = s.other ++ [mkDayRecord c "other"] ∧
    (processReport c s).other.length = s.other.length + 1 := by
  have hR : shouldHandleReprogrammingSuccess c = true := by
    simp [shouldHandleReprogrammingSuccess, hre, hb]
  refine ⟨by simp [finalBadge, hR], ?_, ?_, ?_⟩ <;>
    simp [processReport, needsDashboardUpdate, hR]

/-- A concrete reprogramming re-flash whose configured badge is success. -/
def reprogSuccessCtx : ReportCtx :=
  { pic_id := "P1"
    deviceId := "D1"
    status := "2"
    previousVersion := "2.0"
    updatedVersion := "2.0"
    isReprogramming := true
    configMessage := "update successful"
    configBadge := "success"
    timestamp := 10 }

/-- C5 witness: the reprogramming-success theorem applied to the concrete
report `reprogSuccessCtx` on an empty day. -/
theorem C5_reprogramming_success_to_other_witness :
    finalBadge reprogSuccessCtx = "other" ∧
    (processReport reprogSuccessCtx emptyDayRecords).success = emptyDayRecords.success ∧
    (processReport reprogSuccessCtx emptyDayRecords).other =
      emptyDayRecords.other ++ [mkDayRecord reprogSuccessCtx "other"] ∧
    (processReport reprogSuccessCtx emptyDayRecords).other.length =
      emptyDayRecords.other.length + 1 :=
  C5_reprogramming_success_to_other reprogSuccessCtx emptyDayRecords rfl (by decide)

/-- C6 (amended): with `reprogramming = false` and previous version equal to
updated version, a resolved badge of `"other"` is aggregated as `"other"`
(one record appended to the other bucket) and a resolved `"failure"` keeps
effective badge `"failure"`; but a resolved `"success"` keeps effective
badge `"success"` — it is not rerouted to `"other"`, and the report leaves
the daily buckets untouched (the already-updated reroute fires only for
resolved badge `"other"`). -/
theorem C6_equal_versions_policy (c : ReportCtx) (s : DayRecords)
    (hre : c.isReprogramming = false)
    (hcmp : compareVersions c.previousVersion c.updatedVersion = 0) :
    (baseBadge c = "other" →
      finalBadge c = "other" ∧
      (processReport c s).other = s.other ++ [mkDayRecord c "other"] ∧
      (processReport c s).success = s.success ∧
      (processReport c s).failure = s.failure) ∧
    (baseBadge c = "failure" → finalBadge c = "failure" ∧ processReport c s = s) ∧
    (baseBadge c = "success" → finalBadge c = "success" ∧ processReport c s = s) := by
  have hvc : versionComparison c = 0 := by simp [versionComparison, hcmp]
  have hR : shouldHandleReprogrammingSuccess c = false := by
    simp [shouldHandleReprogrammingSuccess, hre]
  have hL : lowerToUpper c = false := by simp [lowerToUpper, hre, hvc]
  refine ⟨?_, ?_, ?_⟩
  · intro hb
    have hA : alreadyUpdatedCase c = true := by simp [alreadyUpdatedCase, hre, hvc, hb]
    refine ⟨by simp [finalBadge, hR, hA], ?_, ?_, ?_⟩ <;>
      simp [processReport, needsDashboardUpdate, hR, hA]
  · intro hb
    have hA : alreadyUpdatedCase c = false := by simp [alreadyUpdatedCase, hb]
    exact ⟨by simp [finalBadge, hR, hA, hb],
      by simp [processReport, needsDashboardUpdate, hR, hA, hL]⟩
  · intro hb
    have hA : alreadyUpdatedCase c = false := by simp [alreadyUpdatedCase, hb]
    exact ⟨by simp [finalBadge, hR, hA, hb],
      by simp [processReport, needsDashboardUpdate, hR, hA, hL]⟩

/-- A non-reprogramming report whose versions are equal and whose configured
badge is success. -/
def equalSuccessCtx : ReportCtx :=
  { pic_id := "P1"
    deviceId := "D1"
    status := "2"
    previousVersion := "2.0"
    updatedVersion := "2.0"
    isReprogramming := false
    configMessage := "update successful"
    configBadge := "success"
    timestamp := 10 }

/-- C6 counterexample: for the concrete report `equalSuccessCtx`
(`reprogramming = false`, equal versions, resolved badge success) the
effective badge is `"success"`, not `"other"`, and the other bucket of the day
gains nothing — the already-up-to-date reroute requires a resolved badge of
`"other"`. -/
theorem C6_equal_success_counterexample :
    equalSuccessCtx.isReprogramming = false ∧
    compareVersions equalSuccessCtx.previousVersion equalSuccessCtx.updatedVersion = 0 ∧
    baseBadge equalSuccessCtx = "success" ∧
    finalBadge equalSuccessCtx = "success" ∧
    finalBadge equalSuccessCtx ≠ "other" ∧
    (processReport equalSuccessCtx emptyDayRecords).other = [] := by
  decide

/-- A non-reprogramming report whose versions are equal and whose configured
badge is `"other"`. -/
def equalOtherCtx : ReportCtx :=
  { pic_id := "P1"
    deviceId := "D1"
    status := "7"
    previousVersion := "2.0"
    updatedVersion := "2.0"
    isReprogramming := false
    configMessage := "device already up to date"
    configBadge := "other"
    timestamp := 10 }

/-- C6 witness: the equal-versions policy theorem applied at the concrete
reports `equalOtherCtx` (rerouted to the other bucket) and `equalSuccessCtx`
(left as a success, no daily mutation). -/
theorem C6_equal_versions_policy_witness :
    (finalBadge equalOtherCtx = "other" ∧
      (processReport equalOtherCtx emptyDayRecords).other =
        emptyDayRecords.other ++ [mkDayRecord equalOtherCtx "other"] ∧
      (processReport equalOtherCtx emptyDayRecords).success = emptyDayRecords.success ∧
      (processReport equalOtherCtx emptyDayRecords).failure = emptyDayRecords.failure) ∧
    (finalBadge equalSuccessCtx = "success" ∧
      processReport equalSuccessCtx emptyDayRecords = emptyDayRecords) :=
  ⟨(C6_equal_versions_policy equalOtherCtx emptyDayRecords rfl (by decide)).1 (by decide),
   (C6_equal_versions_policy equalSuccessCtx emptyDayRecords rfl (by decide)).2.2 (by decide)⟩

/-- C1: on the `/report` aggregation path, ingesting a failure and then a
success for the same unit on the same day leaves the failure record present
but recovery-flagged: the failure bucket still holds exactly the one record,
every failure record of the day carries `recovered = true`, the active
failure count is 0 and the success count is 1. -/
theorem C1_recovery_invariant (c1 c2 : ReportCtx)
    (h1r : c1.isReprogramming = false)
    (h1v : compareVersions c1.previousVersion c1.updatedVersion = -1)
    (h1b : baseBadge c1 = "failure")
    (h2r : c2.isReprogramming = false)
    (h2v : compareVersions c2.previousVersion c2.updatedVersion = -1)
    (h2b : baseBadge c2 = "success")
    (hpic : c2.pic_id = c1.pic_id)
    (hdev : c2.deviceId = c1.deviceId) :
    (processReport c2 (processReport c1 emptyDayRecords)).failure.length = 1 ∧
    (∀ r ∈ (processReport c2 (processReport c1 emptyDayRecords)).failure,
      r.recovered = some true) ∧
    (computeRecordCounts (processReport c2 (processReport c1 emptyDayRecords))).failure = 0 ∧
    (computeRecordCounts (processReport c2 (processReport c1 emptyDayRecords))).success = 1 := by
  have h1R : shouldHandleReprogrammingSuccess c1 = false := by
    simp [shouldHandleReprogrammingSuccess, h1r]
  have h1A : alreadyUpdatedCase c1 = false := by
    simp [alreadyUpdatedCase, versionComparison, h1v]
  have h1L : lowerToUpper c1 = true := by
    simp [lowerToUpper, versionComparison, h1r, h1v]
  have h1F : finalBadge c1 = "failure" := by
    simp [finalBadge, h1R, h1A, h1b]
  have hs1 : processReport c1 emptyDayRecords =
      { success := [], failure := [mkDayRecord c1 "failure"], other := [] } := by
    simp [processReport, needsDashboardUpdate, h1R, h1A, h1L, h1F, emptyDayRecords]
  have h2R : shouldHandleReprogrammingSuccess c2 = false := by
    simp [shouldHandleReprogrammingSuccess, h2r]
  have h2A : alreadyUpdatedCase c2 = false := by
    simp [alreadyUpdatedCase, versionComparison, h2v]
  have h2L : lowerToUpper c2 = true := by
    simp [lowerToUpper, versionComparison, h2r, h2v]
  have h2F : finalBadge c2 = "success" := by
    simp [finalBadge, h2R, h2A, h2b]
  have hrec : unrecoveredFailureFor c2 (mkDayRecord c1 "failure") = true := by
    simp [unrecoveredFailureFor, mkDayRecord, hpic, hdev]
  have hs2 : processReport c2 (processReport c1 emptyDayRecords) =
      { success := [mkDayRecord c2 "success"],
        failure := [{ mkDayRecord c1 "failure" with recovered := some true }],
        other := [] } := by
    rw [hs1]
    simp [processReport, needsDashboardUpdate, h2R, h2A, h2L, h2F, recoverFirst, hrec]
  rw [hs2]
  refine ⟨rfl, ?_, ?_, rfl⟩
  · intro r hr
    rw [List.mem_singleton.mp hr]
  · simp [computeRecordCounts, isActiveFailure]

/-- A failure report on the upgrade path (previous `"1.0"`, updated `"2.0"`,
configured badge failure). -/
def failUpgradeCtx : ReportCtx :=
  { pic_id := "P1"
    deviceId := "D1"
    status := "0"
    previousVersion := "1.0"
    updatedVersion := "2.0"
    isReprogramming := false
    configMessage := "update failed"
    configBadge := "failure"
    timestamp := 10 }

/-- A later success report of the same unit for the same upgrade. -/
def succUpgradeCtx : ReportCtx :=
  { failUpgradeCtx with
    status := "2"
    configMessage := "update successful"
    configBadge := "success"
    timestamp := 20 }

/-- C1 witness: the recovery theorem applied to the concrete failure report
`failUpgradeCtx` followed by the success report `succUpgradeCtx` of the same
unit. -/
theorem C1_recovery_invariant_witness :
    (processReport succUpgradeCtx (processReport failUpgradeCtx emptyDayRecords)).failure.length
        = 1 ∧
    (computeRecordCounts
      (processReport succUpgradeCtx (processReport failUpgradeCtx emptyDayRecords))).failure
        = 0 ∧
    (computeRecordCounts
      (processReport succUpgradeCtx (processReport failUpgradeCtx emptyDayRecords))).success
        = 1 :=
  ⟨(C1_recovery_invariant failUpgradeCtx succUpgradeCtx rfl (by decide) (by decide) rfl
      (by decide) (by decide) rfl rfl).1,
   (C1_recovery_invariant failUpgradeCtx succUpgradeCtx rfl (by decide) (by decide) rfl
      (by decide) (by decide) rfl rfl).2.2.1,
   (C1_recovery_invariant failUpgradeCtx succUpgradeCtx rfl (by decide) (by decide) rfl
      (by decide) (by decide) rfl rfl).2.2.2⟩

/-- Any failure record appended by the handler for report `c` matches the
unrecovered-failure probe of the handler. -/
theorem unrecoveredFailureFor_mkDayRecord (c : ReportCtx) :
    unrecoveredFailureFor c (mkDayRecord c "failure") = true := by
  simp [unrecoveredFailureFor, mkDayRecord]

/-- C7: re-ingesting the identical report does not increase the failure
bucket length — processing the same report context twice leaves the failure
bucket exactly as long as after the first processing (for failure reports
the unrecovered-failure dedup skips the second append; for all other badges
the failure bucket is never lengthened at all). -/
theorem C7_failure_ingest_idempotent (c : ReportCtx) (s : DayRecords) :
    (processReport c (processReport c s)).failure.length =
      (processReport c s).failure.length := by
  by_cases hN : needsDashboardUpdate c
  · by_cases hR : shouldHandleReprogrammingSuccess c
    · simp [processReport, hN, hR]
    · by_cases hA : alreadyUpdatedCase c
      · simp [processReport, hN, hR, hA]
      · by_cases hS : finalBadge c = "success"
        · simp [processReport, hN, hR, hA, hS, recoverFirst_length]
        · by_cases hF : finalBadge c = "failure"
          · cases hfind : s.failure.find? (unrecoveredFailureFor c) with
            | some r =>
              have hs1 : processReport c s = s := by
                simp [processReport, hN, hR, hA, hS, hF, hfind]
              rw [hs1, hs1]
            | none =>
              have hs1 : processReport c s =
                  { s with failure := s.failure ++ [mkDayRecord c "failure"] } := by
                simp [processReport, hN, hR, hA, hS, hF, hfind]
              rw [hs1]
              obtain ⟨r, hr⟩ := Option.isSome_iff_exists.mp
                (find?_append_single_isSome (unrecoveredFailureFor c) s.failure
                  (mkDayRecord c "failure") (unrecoveredFailureFor_mkDayRecord c))
              simp [processReport, hN, hR, hA, hS, hF, hr]
          · simp [processReport, hN, hR, hA, hS, hF]
  · simp [processReport, hN]

/-- C8: the compound `(pic_id, updatedVersion)` key stays unique across an
ingest, and when a unit document for the ingested key already exists the
ingest appends one attempt to that document instead of creating a second
document — the store keeps its length and the document under the key gains
exactly one status entry. -/
theorem C8_unit_uniqueness (store : List OTAUpdateDoc)
    (pic_id deviceId previousVersion updatedVersion status message badge : String)
    (color : Option String) (entryDate : Option Nat) (now : Nat)
    (hU : UniqueKeys store) :
    UniqueKeys (ingestReport store pic_id deviceId previousVersion updatedVersion
      status message badge color entryDate now) ∧
    ∀ d, store.find? (keyMatches pic_id updatedVersion) = some d →
      (ingestReport store pic_id deviceId previousVersion updatedVersion
        status message badge color entryDate now).length = store.length ∧
      (ingestReport store pic_id deviceId previousVersion updatedVersion
        status message badge color entryDate now).find? (keyMatches pic_id updatedVersion) =
        some (addStatusEntry d status message entryDate badge color now) ∧
      (addStatusEntry d status message entryDate badge color now).statusEntries.length =
        d.statusEntries.length + 1 := by
  have hkeys : ∀ x : OTAUpdateDoc,
      (addStatusEntry x status message entryDate badge color now).pic_id = x.pic_id ∧
      (addStatusEntry x status message entryDate badge color now).updatedVersion =
        x.updatedVersion :=
    fun _ => ⟨rfl, rfl⟩
  have hpf : ∀ x, keyMatches pic_id updatedVersion
      (addStatusEntry x status message entryDate badge color now) =
      keyMatches pic_id updatedVersion x :=
    fun _ => rfl
  constructor
  · cases hfind : store.find? (keyMatches pic_id updatedVersion) with
    | some d =>
      simp only [ingestReport, hfind]
      exact uniqueKeys_updateFirst hkeys hU
    | none =>
      simp only [ingestReport, hfind]
      rw [UniqueKeys, List.pairwise_append]
      refine ⟨hU, by simp, ?_⟩
      intro a ha b hb
      rw [List.mem_singleton.mp hb]
      intro hk
      have h1 : a.pic_id = pic_id := hk.1
      have h2 : a.updatedVersion = updatedVersion := hk.2
      exact List.find?_eq_none.mp hfind a ha (by simp [keyMatches, h1, h2])
  · intro d hfind
    simp only [ingestReport, hfind]
    refine ⟨updateFirst_length _ _ _, ?_, ?_⟩
    · rw [find?_updateFirst _ _ hpf, hfind]
      rfl
    · simp [addStatusEntry]

/-- A stored unit document for PIC `"P1"` targeting firmware `"2.0"`, holding
one prior attempt. -/
def unitDoc0 : OTAUpdateDoc :=
  addStatusEntry (newOTAUpdateDoc "P1" "D1" "1.0" "2.0" 0) "0" "update failed" (some 0)
    "failure" none 0

/-- C8 witness: the uniqueness theorem applied to the one-document store
`[unitDoc0]` and a further report for the same PIC and the same target
version. -/
theorem C8_unit_uniqueness_witness :
    UniqueKeys (ingestReport [unitDoc0] "P1" "D1" "1.0" "2.0" "2" "update successful"
      "success" none (some 5) 5) ∧
    (ingestReport [unitDoc0] "P1" "D1" "1.0" "2.0" "2" "update successful"
      "success" none (some 5) 5).length = [unitDoc0].length ∧
    (addStatusEntry unitDoc0 "2" "update successful" (some 5) "success" none
      5).statusEntries.length = unitDoc0.statusEntries.length + 1 :=
  ⟨(C8_unit_uniqueness [unitDoc0] "P1" "D1" "1.0" "2.0" "2" "update successful" "success"
      none (some 5) 5 (by simp [UniqueKeys])).1,
   ((C8_unit_uniqueness [unitDoc0] "P1" "D1" "1.0" "2.0" "2" "update successful" "success"
      none (some 5) 5 (by simp [UniqueKeys])).2 unitDoc0 (by decide)).1,
   ((C8_unit_uniqueness [unitDoc0] "P1" "D1" "1.0" "2.0" "2" "update successful" "success"
      none (some 5) 5 (by simp [UniqueKeys])).2 unitDoc0 (by decide)).2.2⟩

end OTA
